import Mathlib

/-!
Verification of `matmethods/vasp/workflows/base/adsorption.py`.

The module is embedded shallowly: each Python function is translated into a
Lean definition returning `Except PyError _`, with the exception raised first
during CPython evaluation modelled as the `Except.error` value.  Several names
referenced by the module (`generate_decorated_slabs`, `opt_struct`,
`adsorbate_config`, `SlabTransformation`, ...) are bound nowhere in the module,
so evaluating them raises `NameError`; this is modelled by `unboundGlobal`.
(The module text additionally fails to parse at line 250, `vis = `; the
functions are modelled individually, as defined by their own bodies.)

The scheduler / dynamic-join semantics described by the specification has no
implementation in the repository source; it is modelled from the spec in the
`DynJoin` namespace.
-/

namespace AdsorptionWF

/-- A Python exception, as raised by the code under analysis. -/
inductive PyError
  | nameError (name : String)
  | valueError (msg : String)
  | typeError (msg : String)
  | attributeError (msg : String)
  deriving DecidableEq, Repr

/-- Evaluating a global name that the module never binds raises `NameError`.
`adsorption.py` imports neither `generate_decorated_slabs` nor any of the
other helpers its bodies mention, and binds no such module-level variable. -/
def unboundGlobal (name : String) : Except PyError α :=
  .error (.nameError name)

/-- pymatgen `Molecule`, as far as this module inspects it (it never does
before failing): only an identity is kept. -/
structure Molecule where
  formula : String
  deriving DecidableEq, Repr

/-- pymatgen `Structure`, as far as this module inspects it: only
`structure.composition.reduced_formula` is ever read (line 170). -/
structure PyStructure where
  reducedFormula : String
  deriving DecidableEq, Repr

/-- A slab produced by the (absent) generator: only `slab.miller_index` is
read by this module. -/
structure Slab where
  millerIndex : List Int
  deriving DecidableEq, Repr

/-- Line 124 / 132: `''.join([str(i) for i in slab.miller_index])`. -/
def millerString (slab : Slab) : String :=
  String.join (slab.millerIndex.map toString)

/-- The `adsorption_config` argument: a dict keyed by miller-index strings
with `Molecule` values, kept in insertion order. -/
abbrev AdsConfig := List (String × Molecule)

/-- The vasp input set argument (line 115); only its identity matters. -/
inductive VaspInputSet
  | MVLSlabSet (bulk : Bool)
  deriving DecidableEq, Repr

/-- A firework appended to `fws`.  `optimizeFW` models line 117
(`OptimizeFW(structure=..., ...)`, no parents); `transmuterFW` models the
`TransmuterFW(...)` calls of the dead region (parents = `fws[0]`, recorded
as the index 0). -/
inductive Firework
  | optimizeFW (formula : String) (cmd : String) (dbFile : Option String)
  | transmuterFW (name : String) (formula : String) (parentIndex : Nat)
  deriving DecidableEq, Repr

/-- `fireworks.Workflow(fws, name=wfname)`. -/
structure Workflow where
  fws : List Firework
  name : String
  deriving DecidableEq, Repr

/-- `fireworks.FWAction`; only the `additions` field is used by this module. -/
structure FWAction where
  additions : List Firework
  deriving DecidableEq, Repr

/-- Python `int(c)` on a single character (line 120): a decimal digit
converts, anything else raises `ValueError`. -/
def pyIntOfChar (c : Char) : Except PyError Int :=
  if c.isDigit then .ok ((c.toNat : Int) - 48)
  else .error (.valueError ("invalid literal for int() with base 10: " ++ c.toString))

/-- The list comprehension `[int(i) for i in s]` of line 120: elements are
converted left to right and the first failure raises. -/
def pyIntList : List Char → Except PyError (List Int)
  | [] => .ok []
  | c :: cs => do
    let x ← pyIntOfChar c
    let xs ← pyIntList cs
    .ok (x :: xs)

/-- Python `max(l)` (line 120): raises `ValueError` on an empty sequence. -/
def pyMax (l : List Int) : Except PyError Int :=
  match l with
  | [] => .error (.valueError "max() arg is an empty sequence")
  | x :: xs => .ok (xs.foldl max x)

/-- The character sequence of `''.join(adsorption_config.keys())` (line 120):
the characters of each key, in dict (insertion) order. -/
def configKeyChars : AdsConfig → List Char
  | [] => []
  | (k, _) :: rest => k.data ++ configKeyChars rest

/-- Lines 126-129: `for key in adsorbate_config.keys(): if key not in
mi_strings: raise ValueError(...)`.  The first offending key raises. -/
def millerIndexCheck (keys miStrings : List String) : Except PyError Unit :=
  match keys.find? (fun k => !(miStrings.contains k)) with
  | some _ =>
      .error (.valueError ("Miller index not in generated slab list. Unique slabs are "
        ++ toString miStrings))
  | none => .ok ()

/-- Lines 131-168, the per-slab loop.  For a slab whose miller string is a
configuration key, line 135 evaluates `SlabTransformation(...)`; the name
`SlabTransformation` (like `shift` and `slag_gen_config` on the same line,
and `slab_input_params`, `AdsorbateSiteFinder`, `InsertSitesTransformation`,
`ads_input_params` further down) is unbound in this module, so the first
matching slab raises `NameError` and no `TransmuterFW` is ever appended. -/
def slabLoopBody (adsorbateConfig : AdsConfig) (fws : List Firework) :
    List Slab → Except PyError (List Firework)
  | [] => .ok fws
  | slab :: rest => do
    let miString := millerString slab
    if (adsorbateConfig.map Prod.fst).contains miString then do
      let _trans ← (unboundGlobal "SlabTransformation" : Except PyError Unit)
      let _slabInputParams ← (unboundGlobal "slab_input_params" : Except PyError Unit)
      let _asf ← (unboundGlobal "AdsorbateSiteFinder" : Except PyError Unit)
      let _adsInputParams ← (unboundGlobal "ads_input_params" : Except PyError Unit)
      slabLoopBody adsorbateConfig fws rest
    else
      slabLoopBody adsorbateConfig fws rest

/-- Lines 170-171: `wfname = "{}:{}".format(structure.composition.
reduced_formula, "elastic constants"); return Workflow(fws, name=wfname)`. -/
def returnWorkflow (struct : PyStructure) (fws : List Firework) : Workflow :=
  { fws := fws, name := struct.reducedFormula ++ ":" ++ "elastic constants" }

/-- Embedding of `get_wf_adsorption` (lines 85-171), statement by statement
in CPython evaluation order.

* line 115: `v = vasp_input_set or MVLSlabSet(structure, bulk=True)`;
* lines 117-118: `fws = []; fws.append(OptimizeFW(...))`;
* line 120: `max_index = max([int(i) for i in ''.join(adsorption_config.keys())])`
  - raises `ValueError` if a key character is not a digit or if the joined
  key string is empty;
* line 121: `slabs = generate_decorated_slabs(opt_struct, ...)` - the callee
  name `generate_decorated_slabs` is evaluated first and is unbound, so this
  statement raises `NameError` whenever reached (`opt_struct` is likewise
  never bound);
* lines 124-129: miller strings of the slabs and the key validation
  (`adsorbate_config` is also unbound);
* lines 131-168: the per-slab loop (`slabLoopBody`);
* lines 170-171: the returned `Workflow` (`returnWorkflow`). -/
def get_wf_adsorption (struct : PyStructure) (adsorption_config : AdsConfig)
    (vasp_input_set : Option VaspInputSet) (min_slab_size : ℚ)
    (min_vacuum_size : ℚ) (max_normal_search : Int) (center_slab : Bool)
    (vasp_cmd : String) (db_file : Option String) :
    Except PyError Workflow := do
  let _v : VaspInputSet := vasp_input_set.getD (VaspInputSet.MVLSlabSet true)
  let fws : List Firework := [Firework.optimizeFW struct.reducedFormula vasp_cmd db_file]
  let ints ← pyIntList (configKeyChars adsorption_config)
  let _max_index ← pyMax ints
  let slabs ← (unboundGlobal "generate_decorated_slabs" : Except PyError (List Slab))
  let _opt_struct ← (unboundGlobal "opt_struct" : Except PyError PyStructure)
  let miStrings := slabs.map millerString
  let adsorbateConfig ← (unboundGlobal "adsorbate_config" : Except PyError AdsConfig)
  let _ ← millerIndexCheck (adsorbateConfig.map Prod.fst) miStrings
  let fws ← slabLoopBody adsorbateConfig fws slabs
  return returnWorkflow struct fws

/-- `get_wf_adsorption` called with the Python default arguments
(`vasp_input_set=None, min_slab_size=7.0, min_vacuum_size=12.0,
max_normal_search=1, center_slab=True, vasp_cmd="vasp", db_file=None`). -/
def get_wf_adsorption_defaults (struct : PyStructure) (cfg : AdsConfig) :
    Except PyError Workflow :=
  get_wf_adsorption struct cfg none 7 12 1 true "vasp" none

/-- `Molecule("CO", ...)` from the module's `__main__` block (line 254). -/
def co : Molecule := { formula := "CO" }

/-- `PymatgenTest.get_structure("Si")` from the `__main__` block (line 256). -/
def si : PyStructure := { reducedFormula := "Si" }

/-- Whether an evaluation outcome is an uncaught `NameError`. -/
def raisedNameError : Except PyError Workflow → Bool
  | .error (.nameError _) => true
  | _ => false

/-- Whether an evaluation outcome is a returned value (no exception). -/
def returnedOk : Except PyError Workflow → Bool
  | .ok _ => true
  | .error _ => false

/-- The observable outcome of running a FireTask body: the value it returns
(`none` models Python `None`), the flat files it writes and the database
documents it inserts. -/
structure ExecEffects where
  returned : Option FWAction
  fileWrites : List (String × String)
  dbInserts : List String
  deriving DecidableEq, Repr

/-- `PassSlabEnergy.run_task` (lines 42-44): `pass; return FWAction()`. -/
def PassSlabEnergy_run_task (fw_spec : List (String × String)) : ExecEffects :=
  { returned := some { additions := [] }, fileWrites := [], dbInserts := [] }

/-- `AnalyzeAdsorption.run_task` (lines 56-82).  Its entire body is the
statement `pass` followed by an expression statement that is one triple-quoted
string literal (the disabled analysis code of lines 58-82); evaluating a bare
string literal has no effect, and the method falls off its end, returning
Python `None`.  Nothing is written to `adsorption.json` or to a database. -/
def AnalyzeAdsorption_run_task (struct : PyStructure) (db_file : Option String)
    (fw_spec : List (String × String)) : ExecEffects :=
  { returned := none, fileWrites := [], dbInserts := [] }

/-- The analysis logic contained in the inert string literal of lines 58-82,
translated as if it were live code: build the document, then write it to the
flat file `adsorption.json` when no db_file is configured and insert it into
the `adsorption` collection otherwise, returning `FWAction()`.  It is kept
here only to document the intent the stub abandons; `AnalyzeAdsorption.run_task`
never executes it. -/
def AnalyzeAdsorption_disabled_body (db_file : Option String) (doc : String) :
    ExecEffects :=
  match db_file with
  | none => { returned := some { additions := [] },
              fileWrites := [("adsorption.json", doc)], dbInserts := [] }
  | some _ => { returned := some { additions := [] },
                fileWrites := [], dbInserts := [doc] }

/-- `AddAdsorptionTasks.run_task` is declared `def run_task(self)` (line 183):
it accepts exactly one positional argument. -/
def run_task_param_count : Nat := 1

/-- The FireWorks framework invokes a task as `t.run_task(fw_spec)`: the bound
method receives `self` plus `fw_spec`, two positional arguments. -/
def framework_arg_count : Nat := 2

/-- Python call semantics for `run_task`: an argument count different from the
declared parameter count raises `TypeError` before the body runs. -/
def pyCallRunTask (args : Nat) (body : Except PyError FWAction) :
    Except PyError FWAction :=
  if args = run_task_param_count then body
  else
    .error (.typeError ("run_task() takes " ++ toString run_task_param_count
      ++ " positional argument but " ++ toString args ++ " were given"))

/-- Attribute lookup on an `AddAdsorptionTasks` instance.  `FireTaskBase`
stores its parameters as dict items, not attributes; the class namespace
provides only the listed members, so `self.spec` raises `AttributeError`. -/
def getattr_AddAdsorptionTasks (attr : String) : Except PyError Unit :=
  if ["run_task", "required_params", "optional_params", "get"].contains attr then .ok ()
  else .error (.attributeError ("AddAdsorptionTasks object has no attribute " ++ attr))

/-- The body of `AddAdsorptionTasks.run_task` (lines 184-212), statement by
statement:

* line 184: `optimize_loc = self.spec["calc_locs"][-1]["path"]` - the
  attribute access `self.spec` raises `AttributeError` (parameters live as
  dict items of the task, never as a `spec` attribute);
* line 191: `generate_decorated_slabs(opt_struct)` - unbound name;
* line 195: `adsorbate_config.keys()` - unbound name;
* line 197: `user_incar_settings` - unbound name;
* line 210: `incar_update` - unbound name;
* line 212: `return FWAction(additions=fws)` - never reached. -/
def AddAdsorptionTasks_run_task_body : Except PyError FWAction := do
  let _optimize_loc ← getattr_AddAdsorptionTasks "spec"
  let _slabs ← (unboundGlobal "generate_decorated_slabs" : Except PyError (List Slab))
  let _adsorbateConfig ← (unboundGlobal "adsorbate_config" : Except PyError AdsConfig)
  let _userIncarSettings ← (unboundGlobal "user_incar_settings" : Except PyError Unit)
  let _incarUpdate ← (unboundGlobal "incar_update" : Except PyError Unit)
  return { additions := [] }

/-- Invoking `AddAdsorptionTasks` through the FireWorks task interface:
the framework passes `fw_spec` to a method declared with only `self`. -/
def framework_invoke_AddAdsorptionTasks (fw_spec : List (String × String)) :
    Except PyError FWAction :=
  pyCallRunTask framework_arg_count AddAdsorptionTasks_run_task_body

end AdsorptionWF

namespace DynJoin

/-- Modelled from the spec: the TaskNode lifecycle states of section 3
(`Pending -> Ready -> Running -> Completed | Failed`).  The scheduler and the
dynamic-join (AggregationTask) logic the spec describes have no implementation
under `src/`; this namespace models them from sections 3, 4.2 and 4.3. -/
inductive NState
  | pending
  | ready
  | running
  | completed
  | failed
  deriving DecidableEq, Repr

/-- Modelled from the spec: a snapshot of one workflow run.  `node i` is
`some (spawnedBy, state)` when a TaskNode with id `i` exists (`spawnedBy` as
in section 3, nullable for the root), `rootId` is the designated optimization
root, and `agg` is the lifecycle state of the AggregationTask. -/
structure Sys where
  node : Nat → Option (Option Nat × NState)
  rootId : Nat
  agg : NState

/-- The `spawned_by` field of node `i`, when the node exists. -/
def spawnOf (s : Sys) (i : Nat) : Option (Option Nat) :=
  (s.node i).map Prod.fst

/-- `Reaches p root i` : node `i` is `root` or is transitively spawned by
`root` through the spawned-by map `p`. -/
inductive Reaches (p : Nat → Option (Option Nat)) (root : Nat) : Nat → Prop
  | refl : Reaches p root root
  | step {j i : Nat} : Reaches p root j → p i = some (some j) → Reaches p root i

/-- Node `i` is the root or a (transitive) descendant of the root of `s`. -/
def UnderRoot (s : Sys) (i : Nat) : Prop :=
  Reaches (spawnOf s) s.rootId i

/-- Modelled from the spec (section 4.3): the frontier-closed predicate.  The
root exists, and every node known to be the root or one of its transitive
descendants is `Completed` - in particular no `Pending` or `Running` node is
transitively spawned by the root. -/
def FrontierClosed (s : Sys) : Prop :=
  (∃ q, s.node s.rootId = some q) ∧
  (∀ i q, s.node i = some q → UnderRoot s i → q.2 = NState.completed)

/-- Overwrite the lifecycle state of node `i` (its spawned-by link is kept). -/
def setState (s : Sys) (i : Nat) (st : NState) : Sys :=
  { s with node := fun j =>
      if j = i then (s.node j).map (fun q => (q.1, st)) else s.node j }

/-- Complete node `i` and atomically merge its expansion delta: every id in
`delta` becomes a fresh `Pending` node spawned by `i`. -/
def completeWith (s : Sys) (i : Nat) (delta : List Nat) : Sys :=
  { s with node := fun j =>
      if j ∈ delta then some (some i, NState.pending)
      else if j = i then (s.node j).map (fun q => (q.1, NState.completed))
      else s.node j }

/-- The AggregationTask becomes `Ready`. -/
def fireAgg (s : Sys) : Sys := { s with agg := NState.ready }

/-- Modelled from the spec (sections 4.2, 4.3, 5): one scheduler step.
`complete` merges the completing node's delta atomically with its completion
(new ids must be fresh); `aggFire` is guarded by the frontier-closed
predicate, which the scheduler re-evaluates on every mutation. -/
inductive Step : Sys → Sys → Prop
  | idle (s : Sys) : Step s s
  | makeReady (s : Sys) (i : Nat) (sb : Option Nat) :
      s.node i = some (sb, NState.pending) → Step s (setState s i NState.ready)
  | start (s : Sys) (i : Nat) (sb : Option Nat) :
      s.node i = some (sb, NState.ready) → Step s (setState s i NState.running)
  | complete (s : Sys) (i : Nat) (sb : Option Nat) (delta : List Nat) :
      s.node i = some (sb, NState.running) →
      (∀ d ∈ delta, s.node d = none) →
      Step s (completeWith s i delta)
  | aggFire (s : Sys) :
      s.agg = NState.pending → FrontierClosed s → Step s (fireAgg s)

/-- A run with a single pending root node and a pending AggregationTask. -/
def sampleSys : Sys :=
  { node := fun i => if i = 0 then some (none, NState.pending) else none,
    rootId := 0, agg := NState.pending }

/-- The constant trace that stays at `sampleSys` (every step is `idle`). -/
def constTrace : Nat → Sys := fun _ => sampleSys

end DynJoin

namespace AdsorptionWF

theorem ok_bind {α β : Type} (a : α) (f : α → Except PyError β) :
    (Except.ok a >>= f) = f a := rfl

theorem error_bind {α β : Type} (e : PyError) (f : α → Except PyError β) :
    ((Except.error e : Except PyError α) >>= f) = Except.error e := rfl

theorem pyIntList_ok_of_digits (l : List Char) (h : ∀ c ∈ l, c.isDigit) :
    ∃ xs, pyIntList l = .ok xs ∧ xs.length = l.length := by
  induction l with
  | nil => exact ⟨[], rfl, rfl⟩
  | cons c cs ih =>
    have hc : pyIntOfChar c = .ok ((c.toNat : Int) - 48) := by
      simp [pyIntOfChar, h c (List.mem_cons_self c cs)]
    obtain ⟨xs, hxs, hlen⟩ := ih (fun x hx => h x (List.mem_cons_of_mem _ hx))
    refine ⟨((c.toNat : Int) - 48) :: xs, ?_, by simp [hlen]⟩
    simp [pyIntList, hc, hxs, ok_bind]

theorem pyMax_ok_of_ne_nil (l : List Int) (h : l ≠ []) : ∃ m, pyMax l = .ok m := by
  cases l with
  | nil => exact absurd rfl h
  | cons x xs => exact ⟨xs.foldl max x, rfl⟩

theorem configKeyChars_digits (cfg : AdsConfig)
    (h2 : ∀ kv ∈ cfg, ∀ c ∈ kv.1.data, c.isDigit) :
    ∀ c ∈ configKeyChars cfg, c.isDigit := by
  induction cfg with
  | nil => intro c hc; simp [configKeyChars] at hc
  | cons kv rest ih =>
    intro c hc
    rw [configKeyChars, List.mem_append] at hc
    rcases hc with hc | hc
    · exact h2 kv (List.mem_cons_self kv rest) c hc
    · exact ih (fun kv' h' => h2 kv' (List.mem_cons_of_mem _ h')) c hc

theorem configKeyChars_ne_nil (cfg : AdsConfig)
    (h1 : ∃ kv ∈ cfg, kv.1.data ≠ []) : configKeyChars cfg ≠ [] := by
  induction cfg with
  | nil => obtain ⟨kv, hmem, _⟩ := h1; cases hmem
  | cons kv0 rest ih =>
    intro h
    rw [configKeyChars] at h
    obtain ⟨ha, hb⟩ := List.append_eq_nil.mp h
    obtain ⟨kv, hmem, hne⟩ := h1
    rcases List.mem_cons.mp hmem with rfl | hm
    · exact hne ha
    · exact ih ⟨kv, hm, hne⟩ hb

theorem get_wf_after_max (struct : PyStructure) (cfg : AdsConfig)
    (v : Option VaspInputSet) (mss mvs : ℚ) (mns : Int) (cs : Bool)
    (cmd : String) (db : Option String) (ints : List Int) (m : Int)
    (h1 : pyIntList (configKeyChars cfg) = .ok ints) (h2 : pyMax ints = .ok m) :
    get_wf_adsorption struct cfg v mss mvs mns cs cmd db =
      .error (.nameError "generate_decorated_slabs") := by
  simp only [get_wf_adsorption, h1, h2, ok_bind, error_bind, unboundGlobal]

end AdsorptionWF

namespace DynJoin

theorem spawnOf_setState (s : Sys) (i : Nat) (st : NState) (j : Nat) :
    spawnOf (setState s i st) j = spawnOf s j := by
  by_cases h : j = i
  · simp only [spawnOf, setState, h, if_pos rfl]
    cases s.node i <;> rfl
  · simp [spawnOf, setState, h]

theorem reaches_congr {p q : Nat → Option (Option Nat)} (hpq : ∀ j, p j = q j)
    {root x : Nat} (h : Reaches p root x) : Reaches q root x := by
  induction h with
  | refl => exact .refl
  | @step j k hj hp ih => exact .step ih (by rw [← hpq]; exact hp)

theorem underRoot_setState {s : Sys} {i : Nat} {st : NState} {x : Nat} :
    UnderRoot (setState s i st) x ↔ UnderRoot s x := by
  constructor
  · exact fun h => reaches_congr (fun j => spawnOf_setState s i st j) h
  · exact fun h => reaches_congr (fun j => (spawnOf_setState s i st j).symm) h

theorem running_ne_completed : NState.running ≠ NState.completed := by decide

theorem pending_ne_completed : NState.pending ≠ NState.completed := by decide

theorem ready_ne_completed : NState.ready ≠ NState.completed := by decide

theorem frontierClosed_not_underRoot {s : Sys} (hcl : FrontierClosed s) {i : Nat}
    {sb : Option Nat} {st : NState} (hn : s.node i = some (sb, st))
    (hst : st ≠ NState.completed) : ¬ UnderRoot s i :=
  fun hu => hst (hcl.2 i (sb, st) hn hu)

theorem frontierClosed_setState {s : Sys} {i : Nat} {st : NState}
    (hcl : FrontierClosed s) (hni : ¬ UnderRoot s i) :
    FrontierClosed (setState s i st) := by
  obtain ⟨⟨q0, hq0⟩, hall⟩ := hcl
  have hri : s.rootId ≠ i := by
    intro h
    exact hni (by rw [UnderRoot, ← h]; exact Reaches.refl)
  refine ⟨⟨q0, ?_⟩, ?_⟩
  · show (if s.rootId = i then _ else s.node s.rootId) = _
    rw [if_neg hri]
    exact hq0
  · intro x q hx hux
    have hux' : UnderRoot s x := underRoot_setState.mp hux
    by_cases hxi : x = i
    · exact absurd (hxi ▸ hux') hni
    · have hnx : (setState s i st).node x = s.node x := by simp [setState, hxi]
      rw [hnx] at hx
      exact hall x q hx hux'

theorem underRoot_completeWith {s : Sys} {i : Nat} {delta : List Nat}
    (hfresh : ∀ d ∈ delta, s.node d = none)
    (hni : ¬ UnderRoot s i)
    (hroot : ∃ q, s.node s.rootId = some q) :
    ∀ x, UnderRoot (completeWith s i delta) x → UnderRoot s x ∧ x ∉ delta := by
  intro x hx
  induction hx with
  | refl =>
    refine ⟨Reaches.refl, fun hmem => ?_⟩
    obtain ⟨q, hq⟩ := hroot
    have hmem' : s.rootId ∈ delta := hmem
    rw [hfresh _ hmem'] at hq
    cases hq
  | @step j k hj hp ih =>
    obtain ⟨hjo, hjd⟩ := ih
    by_cases hkd : k ∈ delta
    · have hk : spawnOf (completeWith s i delta) k = some (some i) := by
        simp [spawnOf, completeWith, hkd]
      rw [hp] at hk
      injection hk with hk'
      injection hk' with hk''
      exact absurd (hk'' ▸ hjo) hni
    · have hk : spawnOf (completeWith s i delta) k = spawnOf s k := by
        by_cases hki : k = i
        · subst hki
          simp only [spawnOf, completeWith, if_neg hkd, if_pos rfl]
          cases s.node k <;> rfl
        · simp [spawnOf, completeWith, hkd, hki]
      exact ⟨Reaches.step hjo (hk.symm.trans hp), hkd⟩

theorem frontierClosed_completeWith {s : Sys} {i : Nat} {sb : Option Nat}
    {delta : List Nat}
    (hcl : FrontierClosed s) (hn : s.node i = some (sb, NState.running))
    (hfresh : ∀ d ∈ delta, s.node d = none) :
    FrontierClosed (completeWith s i delta) := by
  have hni : ¬ UnderRoot s i :=
    frontierClosed_not_underRoot hcl hn running_ne_completed
  obtain ⟨⟨q0, hq0⟩, hall⟩ := hcl
  have hrd : s.rootId ∉ delta := by
    intro hm
    rw [hfresh _ hm] at hq0
    cases hq0
  have hri : s.rootId ≠ i := by
    intro h
    have hq2 : q0.2 = NState.completed := hall _ _ hq0 Reaches.refl
    rw [h, hn] at hq0
    injection hq0 with h'
    rw [← h'] at hq2
    exact running_ne_completed hq2
  refine ⟨⟨q0, ?_⟩, ?_⟩
  · show (if s.rootId ∈ delta then _ else if s.rootId = i then _ else s.node s.rootId) = _
    rw [if_neg hrd, if_neg hri]
    exact hq0
  · intro x q hx hux
    obtain ⟨hxo, hxd⟩ :=
      underRoot_completeWith hfresh hni ⟨q0, hq0⟩ x hux
    by_cases hxi : x = i
    · exact absurd (hxi ▸ hxo) hni
    · have hnx : (completeWith s i delta).node x = s.node x := by
        simp [completeWith, hxd, hxi]
      rw [hnx] at hx
      exact hall x q hx hxo

theorem frontierClosed_step {s s' : Sys} (h : Step s s') (hcl : FrontierClosed s) :
    FrontierClosed s' := by
  cases h with
  | idle => exact hcl
  | makeReady i sb hn =>
    exact frontierClosed_setState hcl
      (frontierClosed_not_underRoot hcl hn pending_ne_completed)
  | start i sb hn =>
    exact frontierClosed_setState hcl
      (frontierClosed_not_underRoot hcl hn ready_ne_completed)
  | complete i sb delta hn hfresh => exact frontierClosed_completeWith hcl hn hfresh
  | aggFire hp hc => exact hcl

theorem step_agg {s s' : Sys} (h : Step s s') :
    s'.agg = s.agg ∨
      (s.agg = NState.pending ∧ s'.agg = NState.ready ∧ FrontierClosed s) := by
  cases h with
  | idle => exact Or.inl rfl
  | makeReady i sb hn => exact Or.inl rfl
  | start i sb hn => exact Or.inl rfl
  | complete i sb delta hn hfresh => exact Or.inl rfl
  | aggFire hp hc => exact Or.inr ⟨hp, rfl, hc⟩

theorem step_ready_persist {s s' : Sys} (h : Step s s')
    (hr : s.agg = NState.ready) : s'.agg = NState.ready := by
  rcases step_agg h with he | ⟨hp, _, _⟩
  · rw [he, hr]
  · rw [hp] at hr; exact absurd hr (by decide)

end DynJoin


namespace DynJoin

/-- C4: along any scheduler trace, the AggregationTask (i) becomes `Ready`
only at a point where the frontier-closed predicate holds - the root and
every node then known to be the root's transitive descendant are `Completed`,
so no `Pending` or `Running` node is transitively spawned by the root;
(ii) once `Ready` it stays `Ready`, so the `Pending` to `Ready` transition
happens at most once; (iii) from the transition point on, every node that is
ever a descendant of the root - including any node present at any later step -
is `Completed`, so the AggregationTask never became `Ready` before the last
dynamically spawned descendant completed; and (iv) the transition is enabled
exactly when the predicate holds, so a closed frontier with a pending
AggregationTask can always fire. -/
theorem aggregation_ready_exactly_once (tr : Nat → Sys)
    (hstep : ∀ k, Step (tr k) (tr (k + 1))) :
    (∀ k, (tr k).agg = NState.pending → (tr (k + 1)).agg = NState.ready →
        FrontierClosed (tr k)) ∧
    (∀ k j, k ≤ j → (tr k).agg = NState.ready → (tr j).agg = NState.ready) ∧
    (∀ k, (tr k).agg = NState.pending → (tr (k + 1)).agg = NState.ready →
        ∀ j, k ≤ j → FrontierClosed (tr j)) ∧
    (∀ s : Sys, s.agg = NState.pending → FrontierClosed s → Step s (fireAgg s)) := by
  have hfire : ∀ k, (tr k).agg = NState.pending → (tr (k + 1)).agg = NState.ready →
      FrontierClosed (tr k) := by
    intro k hp hr
    rcases step_agg (hstep k) with he | ⟨_, _, hc⟩
    · rw [hr, hp] at he
      exact absurd he (by decide)
    · exact hc
  refine ⟨hfire, ?_, ?_, ?_⟩
  · intro k j hle hr
    induction j, hle using Nat.le_induction with
    | base => exact hr
    | succ n hn ih => exact step_ready_persist (hstep n) ih
  · intro k hp hr j hle
    have hc := hfire k hp hr
    induction j, hle using Nat.le_induction with
    | base => exact hc
    | succ n hn ih => exact frontierClosed_step (hstep n) ih
  · intro s hp hc
    exact Step.aggFire s hp hc

/-- Witness for C4: the theorem applied to the concrete constant trace whose
every step is `idle`, discharging its hypotheses there. -/
theorem aggregation_ready_exactly_once_witness :
    (∀ k, (constTrace k).agg = NState.pending →
        (constTrace (k + 1)).agg = NState.ready → FrontierClosed (constTrace k)) ∧
    (∀ k j, k ≤ j → (constTrace k).agg = NState.ready →
        (constTrace j).agg = NState.ready) ∧
    (∀ k, (constTrace k).agg = NState.pending →
        (constTrace (k + 1)).agg = NState.ready →
        ∀ j, k ≤ j → FrontierClosed (constTrace j)) ∧
    (∀ s : Sys, s.agg = NState.pending → FrontierClosed s → Step s (fireAgg s)) :=
  aggregation_ready_exactly_once constTrace (fun _ => Step.idle _)

end DynJoin

namespace AdsorptionWF

/-- C1: with an adsorption configuration containing the miller-index key
`"999"` that no generator output could match, `get_wf_adsorption` does fail
before any downstream slab or adsorbate task is created - but with a
`NameError` raised at the slab-generation line 121 (`generate_decorated_slabs`
and `opt_struct` are unbound), not with the domain `ValueError` of the
miller-index validation at lines 126-129, which is unreachable. -/
theorem mismatched_key_raises_NameError_before_validation :
    get_wf_adsorption_defaults si [("999", co)] =
      .error (.nameError "generate_decorated_slabs") := rfl

/-- C2: at the module's own `__main__` configuration `{"111": co}`, evaluation
of `get_wf_adsorption` raises `NameError` at line 121, before the per-slab
loop of lines 131-168 that the claim describes can add any slab or adsorbate
firework: the delta the claim counts is never produced. -/
theorem main_config_call_adds_no_tasks :
    get_wf_adsorption_defaults si [("111", co)] =
      .error (.nameError "generate_decorated_slabs") := rfl

/-- C3: executing `AnalyzeAdsorption.run_task` has no effect: it writes no
flat file and inserts no database document, and it returns Python `None`
rather than an `FWAction` - the persistence logic of the claim exists only
inside the inert string literal of lines 58-82. -/
theorem analyzeAdsorption_run_task_is_noop (struct : PyStructure)
    (db_file : Option String) (fw_spec : List (String × String)) :
    AnalyzeAdsorption_run_task struct db_file fw_spec =
      { returned := none, fileWrites := [], dbInserts := [] } := rfl

/-- C5: `AddAdsorptionTasks.run_task` never reads the optimized structure and
never returns an `FWAction` with additions: the framework invocation raises
`TypeError` (the method is declared without the `fw_spec` parameter), and even
an arity-correct invocation of the body raises `AttributeError` on its first
statement `self.spec` (line 184), before any firework is built. -/
theorem addAdsorptionTasks_never_returns_additions :
    framework_invoke_AddAdsorptionTasks [("calc_locs", "run1")] =
      .error (.typeError "run_task() takes 1 positional argument but 2 were given") ∧
    AddAdsorptionTasks_run_task_body =
      .error (.attributeError "AddAdsorptionTasks object has no attribute spec") :=
  ⟨rfl, rfl⟩

/-- C6: `get_wf_adsorption` never returns the workflow whose root/parent
structure the claim describes: at the concrete input `(Si, {"100": co})`
evaluation raises `NameError` at line 121, so no workflow - and in particular
no workflow with a single parentless root and derived children - is returned. -/
theorem no_workflow_with_root_is_ever_returned :
    get_wf_adsorption_defaults si [("100", co)] =
      .error (.nameError "generate_decorated_slabs") := rfl

/-- C7: every call of `get_wf_adsorption`, whatever its arguments, terminates
in an exception: no call produces a workflow at all, so two calls with
identical arguments produce the same exception rather than the identical
workflows the claim describes. -/
theorem get_wf_adsorption_never_returns (struct : PyStructure) (cfg : AdsConfig)
    (v : Option VaspInputSet) (mss mvs : ℚ) (mns : Int) (cs : Bool)
    (cmd : String) (db : Option String) :
    returnedOk (get_wf_adsorption struct cfg v mss mvs mns cs cmd db) = false := by
  cases h1 : pyIntList (configKeyChars cfg) with
  | error e => simp [get_wf_adsorption, h1, error_bind, returnedOk]
  | ok ints =>
    cases h2 : pyMax ints with
    | error e => simp [get_wf_adsorption, h1, h2, ok_bind, error_bind, returnedOk]
    | ok m =>
      rw [get_wf_after_max struct cfg v mss mvs mns cs cmd db ints m h1 h2]
      rfl

/-- C8 (counterexample to the claim as stated): the configuration
`{"x": co}` is non-empty, yet evaluation raises `ValueError` at line 120
(`int("x")`), not a `NameError`. -/
theorem nondigit_key_raises_ValueError_not_NameError :
    get_wf_adsorption_defaults si [("x", co)] =
      .error (.valueError "invalid literal for int() with base 10: x") ∧
    raisedNameError (get_wf_adsorption_defaults si [("x", co)]) = false :=
  ⟨rfl, rfl⟩

/-- C8 (amended): for every call of `get_wf_adsorption` whose adsorption
configuration has only decimal-digit keys, at least one of them non-empty,
evaluation raises an unhandled `NameError` at the slab-generation line 121
(the unbound callee `generate_decorated_slabs` is resolved first; `opt_struct`
is likewise never bound), so the function never returns a `Workflow` and no
firework is ever appended after the root optimization firework. -/
theorem digit_key_config_raises_NameError (struct : PyStructure)
    (cfg : AdsConfig) (v : Option VaspInputSet) (mss mvs : ℚ) (mns : Int)
    (cs : Bool) (cmd : String) (db : Option String)
    (h1 : ∃ kv ∈ cfg, kv.1.data ≠ [])
    (h2 : ∀ kv ∈ cfg, ∀ c ∈ kv.1.data, c.isDigit) :
    get_wf_adsorption struct cfg v mss mvs mns cs cmd db =
      .error (.nameError "generate_decorated_slabs") := by
  obtain ⟨ints, hi, hlen⟩ :=
    pyIntList_ok_of_digits (configKeyChars cfg) (configKeyChars_digits cfg h2)
  have hne : configKeyChars cfg ≠ [] := configKeyChars_ne_nil cfg h1
  have hints : ints ≠ [] := by
    intro h
    subst h
    exact hne (List.length_eq_zero.mp hlen.symm)
  obtain ⟨m, hm⟩ := pyMax_ok_of_ne_nil ints hints
  exact get_wf_after_max struct cfg v mss mvs mns cs cmd db ints m hi hm

/-- Witness for the amended C8: the theorem applied at the concrete
configuration `{"111": co}` with the Python default arguments, its hypotheses
discharged by evaluation. -/
theorem digit_key_config_raises_NameError_witness :
    get_wf_adsorption si [("111", co)] none 7 12 1 true "vasp" none =
      .error (.nameError "generate_decorated_slabs") :=
  digit_key_config_raises_NameError si [("111", co)] none 7 12 1 true "vasp" none
    (by decide) (by decide)

/-- C9: invoking `AddAdsorptionTasks` through the FireWorks task interface
fails before any task is added: the framework passes `fw_spec` to a
`run_task` declared with only `self`, raising `TypeError` for every
`fw_spec`; and the body itself (were the arity correct) fails at its first
statement on the undefined `self.spec`, so the dynamic expansion never
returns additions. -/
theorem addAdsorptionTasks_framework_invocation_fails
    (fw_spec : List (String × String)) :
    framework_invoke_AddAdsorptionTasks fw_spec =
      .error (.typeError "run_task() takes 1 positional argument but 2 were given") ∧
    AddAdsorptionTasks_run_task_body =
      .error (.attributeError "AddAdsorptionTasks object has no attribute spec") :=
  ⟨rfl, rfl⟩

/-- C10: the workflow built at the return statement of `get_wf_adsorption`
(lines 170-171) is named with the input structure's reduced formula joined by
a colon to the literal `"elastic constants"` - an elastic-constants name, not
an adsorption-specific one - for every input structure and firework list. -/
theorem returned_workflow_name_is_elastic_constants (struct : PyStructure)
    (fws : List Firework) :
    (returnWorkflow struct fws).name =
      struct.reducedFormula ++ ":elastic constants" := by
  show struct.reducedFormula ++ ":" ++ "elastic constants" = _
  rw [String.append_assoc]
  rfl

end AdsorptionWF
